import Mathlib

/-!
Verification of the Fukui-BI data core (loader + aggregator) against its
specification.  The Python sources `src/data_processor.py` and
`src/data_loader.py` are shallowly embedded: a pandas DataFrame of ledger
rows becomes a `List Row`, monetary floats become `ℚ`, and each method
becomes a Lean function with the same name.  Pandas-specific behaviour
that the claims mention (column derivation of `pd.DataFrame(records)`,
first-occurrence `unique()`, stable ordering) is modelled explicitly.
Pass-through CSV columns that no aggregation reads (office code/name,
page-break number, SEQNO, sub-account fields, classifier columns,
end-period) are elided from the row type; they never influence any
specified behaviour.
-/

namespace FukuiBI

/-- One ledger row: a line item of one CSV file, after loading.
Mirrors the columns of `DataLoader.COLUMN_NAMES` that aggregation uses,
plus the two columns `load_file` appends (`source_file`, `year_month`,
the latter called `period` here as in the spec). -/
structure Row where
  dept_code : Int
  dept_name : String
  report_type : Int
  account_code : Int
  account_name : String
  prior_balance : ℚ
  debit : ℚ
  credit : ℚ
  balance : ℚ
  source_file : String
  period : Option String
deriving DecidableEq

/-- The Ledger: ordered concatenation of all loaded rows. -/
abbrev Ledger := List Row

/-- The four monetary columns a lookup may read
(`'残高', '借方', '貸方', '前残高'` in `get_account_value`). -/
inductive Col where
  | prior_balance
  | debit
  | credit
  | balance
deriving DecidableEq

/-- Reading one monetary column of a row. -/
def Row.colVal (r : Row) : Col → ℚ
  | Col.prior_balance => r.prior_balance
  | Col.debit => r.debit
  | Col.credit => r.credit
  | Col.balance => r.balance

/-- The keys of the fixed account-code table `DataProcessor.ACCOUNT_CODES`. -/
inductive AccountKey where
  | revenue | cost_of_sales | gross_profit | sga
  | operating_income | non_op_revenue | non_op_expense | ordinary_income
  | extra_income | extra_loss | pretax_income | net_income
  | material_cost | labor_cost | expense_cost | mfg_cost
deriving DecidableEq

/-- `DataProcessor.ACCOUNT_CODES`: the immutable chart-of-accounts table. -/
def ACCOUNT_CODES : AccountKey → Int
  | AccountKey.revenue => 4199
  | AccountKey.cost_of_sales => 5399
  | AccountKey.gross_profit => 5400
  | AccountKey.sga => 6299
  | AccountKey.operating_income => 7000
  | AccountKey.non_op_revenue => 7199
  | AccountKey.non_op_expense => 7599
  | AccountKey.ordinary_income => 8000
  | AccountKey.extra_income => 8199
  | AccountKey.extra_loss => 8299
  | AccountKey.pretax_income => 8300
  | AccountKey.net_income => 9000
  | AccountKey.material_cost => 5419
  | AccountKey.labor_cost => 5439
  | AccountKey.expense_cost => 5469
  | AccountKey.mfg_cost => 5299

/-- pandas `Series.unique()`: the distinct values in order of first
occurrence. -/
def uniq {α : Type} [DecidableEq α] : List α → List α
  | [] => []
  | a :: l => a :: uniq (l.filter (fun b => b ≠ a))
termination_by l => l.length
decreasing_by
  simp only [List.length_cons]
  exact Nat.lt_succ_of_le (List.length_filter_le _ _)

theorem mem_uniq {α : Type} [DecidableEq α] (l : List α) (a : α) :
    a ∈ uniq l ↔ a ∈ l := by
  induction l using uniq.induct with
  | case1 => simp [uniq]
  | case2 b l ih =>
    by_cases hab : a = b
    · subst hab; simp [uniq]
    · simp only [uniq, List.mem_cons, ih, List.mem_filter]
      simp [hab]

theorem nodup_uniq {α : Type} [DecidableEq α] (l : List α) :
    (uniq l).Nodup := by
  induction l using uniq.induct with
  | case1 => simp [uniq]
  | case2 b l ih =>
    simp only [uniq, List.nodup_cons]
    refine ⟨?_, ih⟩
    intro hmem
    rw [mem_uniq] at hmem
    simp [List.mem_filter] at hmem

/-- `DataProcessor.filter_by_department`: rows of the given department,
or the whole Ledger when the argument is `none`. -/
def filter_by_department (df : Ledger) (dept_code : Option Int) : Ledger :=
  match dept_code with
  | none => df
  | some c => df.filter (fun r => r.dept_code == c)

/-- `DataProcessor.filter_by_period`: rows of the given `YYYY/MM` period,
or the whole Ledger when the argument is `none`.  A row whose period is
null never equals a concrete period (pandas `None == str` is False). -/
def filter_by_period (df : Ledger) (year_month : Option String) : Ledger :=
  match year_month with
  | none => df
  | some p => df.filter (fun r => r.period == some p)

/-- `DataProcessor.get_main_accounts`: the `出力帳票 == 0` partition. -/
def get_main_accounts (rows : Ledger) : Ledger :=
  rows.filter (fun r => r.report_type == 0)

/-- `DataProcessor.get_cost_breakdown`: the `出力帳票 == 1` partition. -/
def get_cost_breakdown (rows : Ledger) : Ledger :=
  rows.filter (fun r => r.report_type == 1)

/-- `DataProcessor.get_account_value`: the `value_column` entry of the
first row whose `科目ｺｰﾄﾞ` equals `account_code`; `0.0` when none does. -/
def get_account_value (df : Ledger) (account_code : Int)
    (value_column : Col := Col.balance) : ℚ :=
  match df.find? (fun r => r.account_code == account_code) with
  | some r => r.colVal value_column
  | none => 0

/-- The fixed-shape KPI record returned by `calculate_kpi`. -/
structure KPI where
  revenue : ℚ
  cost_of_sales : ℚ
  gross_profit : ℚ
  sga : ℚ
  operating_income : ℚ
  ordinary_income : ℚ
  net_income : ℚ
  gross_margin : ℚ
  op_margin : ℚ
  ord_margin : ℚ
  net_margin : ℚ
deriving DecidableEq

/-- The margin computation and dict literal shared by both branches of
`calculate_kpi` (its last lines): each margin is `income / revenue * 100`
guarded by `if revenue != 0 else 0`. -/
def finishKPI (revenue cost_of_sales gross_profit sga operating_income
    ordinary_income net_income : ℚ) : KPI :=
  { revenue := revenue
    cost_of_sales := cost_of_sales
    gross_profit := gross_profit
    sga := sga
    operating_income := operating_income
    ordinary_income := ordinary_income
    net_income := net_income
    gross_margin := if revenue ≠ 0 then gross_profit / revenue * 100 else 0
    op_margin := if revenue ≠ 0 then operating_income / revenue * 100 else 0
    ord_margin := if revenue ≠ 0 then ordinary_income / revenue * 100 else 0
    net_margin := if revenue ≠ 0 then net_income / revenue * 100 else 0 }

/-- Accumulator of the company-wide loop of `calculate_kpi`
(the seven running sums `revenue .. net_income`). -/
structure KpiSums where
  revenue : ℚ
  cost_of_sales : ℚ
  gross_profit : ℚ
  sga : ℚ
  operating_income : ℚ
  ordinary_income : ℚ
  net_income : ℚ
deriving DecidableEq

/-- One iteration of the company-wide loop of `calculate_kpi`: restrict
`main_df` to one department and add that department's first-match lookup
of each KPI account code. -/
def kpiStep (main_df : Ledger) (acc : KpiSums) (code : Int) : KpiSums :=
  let dept_df := main_df.filter (fun r => r.dept_code == code)
  { revenue := acc.revenue +
      get_account_value dept_df (ACCOUNT_CODES AccountKey.revenue)
    cost_of_sales := acc.cost_of_sales +
      get_account_value dept_df (ACCOUNT_CODES AccountKey.cost_of_sales)
    gross_profit := acc.gross_profit +
      get_account_value dept_df (ACCOUNT_CODES AccountKey.gross_profit)
    sga := acc.sga +
      get_account_value dept_df (ACCOUNT_CODES AccountKey.sga)
    operating_income := acc.operating_income +
      get_account_value dept_df (ACCOUNT_CODES AccountKey.operating_income)
    ordinary_income := acc.ordinary_income +
      get_account_value dept_df (ACCOUNT_CODES AccountKey.ordinary_income)
    net_income := acc.net_income +
      get_account_value dept_df (ACCOUNT_CODES AccountKey.net_income) }

/-- Body of `calculate_kpi` from its `main_df = self.get_main_accounts(filtered)`
line on, parameterised by the already-filtered rows. -/
def kpiFromFiltered (dept_code : Option Int) (filtered : Ledger) : KPI :=
  let main_df := get_main_accounts filtered
  match dept_code with
  | none =>
    let s := (uniq (main_df.map (fun r => r.dept_code))).foldl
      (kpiStep main_df) ⟨0, 0, 0, 0, 0, 0, 0⟩
    finishKPI s.revenue s.cost_of_sales s.gross_profit s.sga
      s.operating_income s.ordinary_income s.net_income
  | some _ =>
    finishKPI
      (get_account_value main_df (ACCOUNT_CODES AccountKey.revenue))
      (get_account_value main_df (ACCOUNT_CODES AccountKey.cost_of_sales))
      (get_account_value main_df (ACCOUNT_CODES AccountKey.gross_profit))
      (get_account_value main_df (ACCOUNT_CODES AccountKey.sga))
      (get_account_value main_df (ACCOUNT_CODES AccountKey.operating_income))
      (get_account_value main_df (ACCOUNT_CODES AccountKey.ordinary_income))
      (get_account_value main_df (ACCOUNT_CODES AccountKey.net_income))

/-- `DataProcessor.calculate_kpi`: department filter, then period filter,
then either direct lookups (specific department) or the
per-department-then-sum loop (company-wide), then margins. -/
def calculate_kpi (df : Ledger) (dept_code : Option Int)
    (year_month : Option String) : KPI :=
  kpiFromFiltered dept_code
    (filter_by_period (filter_by_department df dept_code) year_month)

/-- The two-department example Ledger of the specification (§8):
department 210 Kenki with the five KPI lines, department 220 Infra with
revenue only, all report type 0, period 2025/07. -/
def exampleRow (dc : Int) (dn : String) (ac : Int) (an : String)
    (bal : ℚ) : Row :=
  { dept_code := dc, dept_name := dn, report_type := 0,
    account_code := ac, account_name := an,
    prior_balance := 0, debit := 0, credit := 0, balance := bal,
    source_file := "2025_07_example.csv", period := some "2025/07" }

def exampleLedger : Ledger :=
  [ exampleRow 210 "Kenki" 4199 "rev" 10000000,
    exampleRow 210 "Kenki" 5400 "gp" 3000000,
    exampleRow 210 "Kenki" 7000 "op" 2500000,
    exampleRow 210 "Kenki" 8000 "ord" 2400000,
    exampleRow 210 "Kenki" 9000 "net" 2000000,
    exampleRow 220 "Infra" 4199 "rev" 8000000 ]

/-- One record of `get_department_breakdown` (its appended dict literal;
keys `部課ｺｰﾄﾞ, 部課名, 売上高, 売上総利益, 営業利益, 経常利益,
売上総利益率, 営業利益率`). -/
structure DeptRecord where
  dept_code : Int
  dept_name : String
  revenue : ℚ
  gross_profit : ℚ
  operating_income : ℚ
  ordinary_income : ℚ
  gross_margin : ℚ
  op_margin : ℚ
deriving DecidableEq

/-- Body of `get_department_breakdown` after the period filter. -/
def deptBreakdownFromFiltered (filtered : Ledger) : List DeptRecord :=
  let main_df := get_main_accounts filtered
  (List.insertionSort (fun a b : Int => a ≤ b)
      (uniq (main_df.map (fun r => r.dept_code)))).map (fun code =>
    let dept_df := main_df.filter (fun r => r.dept_code == code)
    let dept_name := match dept_df.head? with
      | some r => r.dept_name
      | none => ""
    let revenue := get_account_value dept_df (ACCOUNT_CODES AccountKey.revenue)
    let gross_profit :=
      get_account_value dept_df (ACCOUNT_CODES AccountKey.gross_profit)
    let operating_income :=
      get_account_value dept_df (ACCOUNT_CODES AccountKey.operating_income)
    let ordinary_income :=
      get_account_value dept_df (ACCOUNT_CODES AccountKey.ordinary_income)
    { dept_code := code
      dept_name := dept_name
      revenue := revenue
      gross_profit := gross_profit
      operating_income := operating_income
      ordinary_income := ordinary_income
      gross_margin := if revenue ≠ 0 then gross_profit / revenue * 100 else 0
      op_margin := if revenue ≠ 0 then operating_income / revenue * 100 else 0 })

/-- `DataProcessor.get_department_breakdown`: one record per distinct
department code of the period-filtered main accounts, codes ascending. -/
def get_department_breakdown (df : Ledger) (year_month : Option String) :
    List DeptRecord :=
  deptBreakdownFromFiltered (filter_by_period df year_month)

/-- The cost-structure record of `get_cost_structure` (dict keys
`material_cost, labor_cost, expense, mfg_cost`). -/
structure CostStructure where
  material_cost : ℚ
  labor_cost : ℚ
  expense : ℚ
  mfg_cost : ℚ
deriving DecidableEq

/-- Body of `get_cost_structure` after the two filters. -/
def costStructureFromFiltered (dept_code : Option Int) (filtered : Ledger) :
    CostStructure :=
  let cost_df := get_cost_breakdown filtered
  let main_df := get_main_accounts filtered
  match dept_code with
  | none =>
    let mlx := (uniq (cost_df.map (fun r => r.dept_code))).foldl
      (fun acc code =>
        let dept_cost := cost_df.filter (fun r => r.dept_code == code)
        ( acc.1 + get_account_value dept_cost
            (ACCOUNT_CODES AccountKey.material_cost),
          acc.2.1 + get_account_value dept_cost
            (ACCOUNT_CODES AccountKey.labor_cost),
          acc.2.2 + get_account_value dept_cost
            (ACCOUNT_CODES AccountKey.expense_cost) ))
      ((0 : ℚ), (0 : ℚ), (0 : ℚ))
    let mfg := (uniq (main_df.map (fun r => r.dept_code))).foldl
      (fun acc code =>
        let dept_main := main_df.filter (fun r => r.dept_code == code)
        acc + get_account_value dept_main (ACCOUNT_CODES AccountKey.mfg_cost))
      (0 : ℚ)
    { material_cost := mlx.1, labor_cost := mlx.2.1,
      expense := mlx.2.2, mfg_cost := mfg }
  | some _ =>
    { material_cost :=
        get_account_value cost_df (ACCOUNT_CODES AccountKey.material_cost)
      labor_cost :=
        get_account_value cost_df (ACCOUNT_CODES AccountKey.labor_cost)
      expense :=
        get_account_value cost_df (ACCOUNT_CODES AccountKey.expense_cost)
      mfg_cost :=
        get_account_value main_df (ACCOUNT_CODES AccountKey.mfg_cost) }

/-- `DataProcessor.get_cost_structure`: material/labor/expense from the
report-type-1 partition, mfg_cost from the report-type-0 partition. -/
def get_cost_structure (df : Ledger) (dept_code : Option Int)
    (year_month : Option String) : CostStructure :=
  costStructureFromFiltered dept_code
    (filter_by_period (filter_by_department df dept_code) year_month)

/-- One projected row of `get_detail_data` (display columns
`部課名, 科目名, 前残高, 借方, 貸方, 残高`). -/
structure DetailRecord where
  dept_name : String
  account_name : String
  prior_balance : ℚ
  debit : ℚ
  credit : ℚ
  balance : ℚ
deriving DecidableEq

/-- The sort key of `get_detail_data`: ascending by
(department name, account name). -/
def detailLE (a b : DetailRecord) : Prop :=
  a.dept_name < b.dept_name ∨
    (a.dept_name = b.dept_name ∧ a.account_name ≤ b.account_name)

instance : DecidableRel detailLE := fun a b => by
  unfold detailLE; infer_instance

/-- Body of `get_detail_data` after the two filters. -/
def detailFromFiltered (output_type : Int) (filtered : Ledger) :
    List DetailRecord :=
  let rows := filtered.filter (fun r => r.report_type == output_type)
  List.insertionSort detailLE
    (rows.map (fun r =>
      { dept_name := r.dept_name, account_name := r.account_name,
        prior_balance := r.prior_balance, debit := r.debit,
        credit := r.credit, balance := r.balance }))

/-- `DataProcessor.get_detail_data`: filtered, projected rows sorted by
(department name, account name). -/
def get_detail_data (df : Ledger) (dept_code : Option Int)
    (year_month : Option String) (output_type : Int) : List DetailRecord :=
  detailFromFiltered output_type
    (filter_by_period (filter_by_department df dept_code) year_month)

/-- One record of `get_sga_breakdown` (dict keys `科目ｺｰﾄﾞ, 科目名, 金額`). -/
structure SgaItem where
  code : Int
  name : String
  amount : ℚ
deriving DecidableEq

/-- The descending-by-amount relation of `get_sga_breakdown`'s final
`sort_values('金額', ascending=False)`. -/
def sgaGE (a b : SgaItem) : Prop := b.amount ≤ a.amount

instance : DecidableRel sgaGE := fun a b => by
  unfold sgaGE; infer_instance

instance : IsTotal SgaItem sgaGE :=
  ⟨fun a b => (le_total b.amount a.amount).imp id id⟩

instance : IsTrans SgaItem sgaGE :=
  ⟨fun _ _ _ h1 h2 => le_trans h2 h1⟩

/-- Body of `get_sga_breakdown` after the two filters: keep main-account
rows with `6000 <= 科目ｺｰﾄﾞ < 6299`, group by account code, flat-sum the
balances, drop zero totals, sort descending by amount. -/
def sgaFromFiltered (filtered : Ledger) : List SgaItem :=
  let main_df := get_main_accounts filtered
  let sga_df := main_df.filter
    (fun r => 6000 ≤ r.account_code ∧ r.account_code < 6299)
  let results := (uniq (sga_df.map (fun r => r.account_code))).filterMap
    (fun code =>
      let item_df := sga_df.filter (fun r => r.account_code == code)
      let name := match item_df.head? with
        | some r => r.account_name
        | none => ""
      let total : ℚ := (item_df.map (fun r => r.balance)).sum
      if total ≠ 0 then some ⟨code, name, total⟩ else none)
  List.insertionSort sgaGE results

/-- `DataProcessor.get_sga_breakdown`. -/
def get_sga_breakdown (df : Ledger) (dept_code : Option Int)
    (year_month : Option String) : List SgaItem :=
  sgaFromFiltered (filter_by_period (filter_by_department df dept_code) year_month)

/-- One record of `get_cost_breakdown_by_dept` (dict keys
`部課ｺｰﾄﾞ, 部課名, 材料費, 労務費, 経費, 製造原価`). -/
structure CostDeptRecord where
  dept_code : Int
  dept_name : String
  material : ℚ
  labor : ℚ
  expense : ℚ
  mfg : ℚ
deriving DecidableEq

/-- Body of `get_cost_breakdown_by_dept` after the period filter: one
record per distinct department code of the report-type-1 partition,
codes ascending. -/
def costByDeptFromFiltered (filtered : Ledger) : List CostDeptRecord :=
  let cost_df := get_cost_breakdown filtered
  let main_df := get_main_accounts filtered
  (List.insertionSort (fun a b : Int => a ≤ b)
      (uniq (cost_df.map (fun r => r.dept_code)))).map (fun code =>
    let dept_cost := cost_df.filter (fun r => r.dept_code == code)
    let dept_main := main_df.filter (fun r => r.dept_code == code)
    let dept_name := match dept_cost.head? with
      | some r => r.dept_name
      | none => ""
    { dept_code := code
      dept_name := dept_name
      material :=
        get_account_value dept_cost (ACCOUNT_CODES AccountKey.material_cost)
      labor :=
        get_account_value dept_cost (ACCOUNT_CODES AccountKey.labor_cost)
      expense :=
        get_account_value dept_cost (ACCOUNT_CODES AccountKey.expense_cost)
      mfg :=
        get_account_value dept_main (ACCOUNT_CODES AccountKey.mfg_cost) })

/-- `DataProcessor.get_cost_breakdown_by_dept`. -/
def get_cost_breakdown_by_dept (df : Ledger) (year_month : Option String) :
    List CostDeptRecord :=
  costByDeptFromFiltered (filter_by_period df year_month)

/-! Column shape of the tabular results.  The record-building methods end
in `pd.DataFrame(results)`, whose columns are the keys of the record
dicts and which has NO columns when `results` is the empty list; the
projection method `get_detail_data` instead slices fixed columns out of
the Ledger frame, so its (possibly empty) result keeps those columns. -/

/-- Columns of `pd.DataFrame(records)`: the record keys, or none when the
record list is empty. -/
def recordFrameCols {α : Type} (keys : List String) (records : List α) :
    List String :=
  if records.isEmpty then [] else keys

/-- Column keys of the dict appended by `get_department_breakdown`. -/
def DEPT_BREAKDOWN_COLS : List String :=
  ["部課ｺｰﾄﾞ", "部課名", "売上高", "売上総利益", "営業利益", "経常利益",
   "売上総利益率", "営業利益率"]

/-- Column keys of the dict appended by `get_sga_breakdown`. -/
def SGA_COLS : List String := ["科目ｺｰﾄﾞ", "科目名", "金額"]

/-- Column keys of the dict appended by `get_cost_breakdown_by_dept`. -/
def COST_BY_DEPT_COLS : List String :=
  ["部課ｺｰﾄﾞ", "部課名", "材料費", "労務費", "経費", "製造原価"]

/-- The `display_cols` of `get_detail_data`. -/
def DETAIL_DISPLAY_COLS : List String :=
  ["部課名", "科目名", "前残高", "借方", "貸方", "残高"]

/-- Columns of `get_department_breakdown`'s DataFrame. -/
def get_department_breakdown_cols (df : Ledger) (year_month : Option String) :
    List String :=
  recordFrameCols DEPT_BREAKDOWN_COLS (get_department_breakdown df year_month)

/-- Columns of `get_sga_breakdown`'s DataFrame. -/
def get_sga_breakdown_cols (df : Ledger) (dept_code : Option Int)
    (year_month : Option String) : List String :=
  recordFrameCols SGA_COLS (get_sga_breakdown df dept_code year_month)

/-- Columns of `get_cost_breakdown_by_dept`'s DataFrame. -/
def get_cost_breakdown_by_dept_cols (df : Ledger)
    (year_month : Option String) : List String :=
  recordFrameCols COST_BY_DEPT_COLS (get_cost_breakdown_by_dept df year_month)

/-- Columns of `get_detail_data`'s DataFrame: the fixed `display_cols`
slice, kept even when no row survives the filters. -/
def get_detail_data_cols (_df : Ledger) (_dept_code : Option Int)
    (_year_month : Option String) (_output_type : Int) : List String :=
  DETAIL_DISPLAY_COLS

/-! The Loader (`src/data_loader.py`).  A parsed CSV file is a filename
plus its already-parsed rows (CSV text parsing and dtype coercion are the
tabular library's; blank monetary cells are already 0 after `fillna(0)`,
and a blank `開始年月` cell is `none` — `dropna` skips it). -/

/-- One parsed in-file line, before `load_file` appends
`source_file`/`year_month`.  Pass-through columns are elided as for
`Row`. -/
structure CsvRow where
  dept_code : Int
  dept_name : String
  report_type : Int
  account_code : Int
  account_name : String
  prior_balance : ℚ
  debit : ℚ
  credit : ℚ
  balance : ℚ
  start_period : Option String
deriving DecidableEq

/-- One successfully parsed CSV file. -/
structure CsvFile where
  filename : String
  rows : List CsvRow
deriving DecidableEq

/-- Anchored match of the regex `(\d{4})_(\d{2})_` at the head of a
character list, returning the rendered `"YYYY/MM"` on success. -/
def matchYM : List Char → Option String
  | y1 :: y2 :: y3 :: y4 :: '_' :: m1 :: m2 :: '_' :: _ =>
    if y1.isDigit && y2.isDigit && y3.isDigit && y4.isDigit &&
        m1.isDigit && m2.isDigit then
      some (String.mk [y1, y2, y3, y4, '/', m1, m2])
    else
      none
  | _ => none

/-- `re.search`: try the anchored match at each position left to right,
first match wins. -/
def scanYM : List Char → Option String
  | [] => none
  | c :: rest =>
    match matchYM (c :: rest) with
    | some s => some s
    | none => scanYM rest

/-- `DataLoader._extract_year_month_from_filename`: first occurrence of
the pattern `YYYY_MM_` anywhere in the filename, rendered `"YYYY/MM"`. -/
def extract_year_month_from_filename (filename : String) : Option String :=
  scanYM filename.toList

/-- The period `load_file` derives for a file: filename pattern first,
else the first non-null `開始年月` value, else null. -/
def load_file_period (f : CsvFile) : Option String :=
  match extract_year_month_from_filename f.filename with
  | some ym => some ym
  | none => (f.rows.filterMap (fun r => r.start_period)).head?

/-- `DataLoader.load_file` (after parsing): tag every row of the file
with `source_file` and the single derived period. -/
def load_file (f : CsvFile) : Ledger :=
  let year_month := load_file_period f
  f.rows.map (fun r =>
    { dept_code := r.dept_code, dept_name := r.dept_name,
      report_type := r.report_type, account_code := r.account_code,
      account_name := r.account_name, prior_balance := r.prior_balance,
      debit := r.debit, credit := r.credit, balance := r.balance,
      source_file := f.filename, period := year_month })

/-- A directory entry as `load_all` sees it: a CSV filename and either
its parsed content or `none` when `load_file` raises (malformed file). -/
structure CsvEntry where
  filename : String
  parse : Option (List CsvRow)
deriving DecidableEq

/-- The Loader's mutable state: the cached Ledger (`_df`, `none` before
the first load) and `_loaded_files`. -/
structure LoaderState where
  cached : Option Ledger
  loaded_files : List String
deriving DecidableEq

/-- `DataLoader.load_all` over a directory snapshot; `none` models a
missing data folder (which the code creates and treats as empty).  The
`_loaded_files` reset happens only on the branch that found CSV files,
exactly as in the source. -/
def load_all (st : LoaderState) (dir : Option (List CsvEntry)) :
    LoaderState × Ledger :=
  match dir with
  | none => ({ st with cached := some [] }, [])
  | some files =>
    let csv_files := List.insertionSort
      (fun a b : CsvEntry => a.filename ≤ b.filename) files
    if csv_files.isEmpty then
      ({ st with cached := some [] }, [])
    else
      let loaded := csv_files.filterMap (fun f =>
        f.parse.map (fun rows => (f.filename, load_file ⟨f.filename, rows⟩)))
      let df := (loaded.map (fun x => x.2)).flatten
      ({ cached := some df, loaded_files := loaded.map (fun x => x.1) }, df)

/-- `DataLoader.reload`: clear the cache and the file list, then
`load_all`. -/
def reload (_st : LoaderState) (dir : Option (List CsvEntry)) :
    LoaderState × Ledger :=
  load_all { cached := none, loaded_files := [] } dir

/-- `DataLoader.get_periods`: distinct non-null periods, sorted
ascending. -/
def get_periods (df : Ledger) : List String :=
  if df.isEmpty then []
  else
    List.insertionSort (fun a b : String => a ≤ b)
      (uniq (df.filterMap (fun r => r.period)))

/-- `DataLoader.get_latest_period`: `periods[-1] if periods else None`. -/
def get_latest_period (df : Ledger) : Option String :=
  let periods := get_periods df
  if periods.isEmpty then none else periods.getLast?

/-! State-threaded Aggregator wrappers.  Every `DataProcessor` method
only reads `self.df` (each body starts from `self.df` or
`self.df.copy()` and never assigns the attribute), so the explicit
state-passing translation returns the stored Ledger unchanged. -/

def calculate_kpi_st (st : Ledger) (dept_code : Option Int)
    (year_month : Option String) : KPI × Ledger :=
  (calculate_kpi st dept_code year_month, st)

def filter_by_department_st (st : Ledger) (dept_code : Option Int) :
    Ledger × Ledger :=
  (filter_by_department st dept_code, st)

def filter_by_period_st (st : Ledger) (year_month : Option String) :
    Ledger × Ledger :=
  (filter_by_period st year_month, st)

def get_account_value_st (st : Ledger) (rows : Ledger) (account_code : Int)
    (value_column : Col) : ℚ × Ledger :=
  (get_account_value rows account_code value_column, st)

def get_department_breakdown_st (st : Ledger) (year_month : Option String) :
    List DeptRecord × Ledger :=
  (get_department_breakdown st year_month, st)

def get_cost_structure_st (st : Ledger) (dept_code : Option Int)
    (year_month : Option String) : CostStructure × Ledger :=
  (get_cost_structure st dept_code year_month, st)

def get_sga_breakdown_st (st : Ledger) (dept_code : Option Int)
    (year_month : Option String) : List SgaItem × Ledger :=
  (get_sga_breakdown st dept_code year_month, st)

def get_detail_data_st (st : Ledger) (dept_code : Option Int)
    (year_month : Option String) (output_type : Int) :
    List DetailRecord × Ledger :=
  (get_detail_data st dept_code year_month output_type, st)

def get_cost_breakdown_by_dept_st (st : Ledger) (year_month : Option String) :
    List CostDeptRecord × Ledger :=
  (get_cost_breakdown_by_dept st year_month, st)

/-- The all-zero KPI record (every numeric output defaulted to 0). -/
def zeroKPI : KPI := ⟨0, 0, 0, 0, 0, 0, 0, 0, 0, 0, 0⟩

/-- The all-zero cost structure. -/
def zeroCost : CostStructure := ⟨0, 0, 0, 0⟩

/-- A two-item SGA tie Ledger: two distinct SGA account codes with the
same positive flat sum. -/
def tieLedger : Ledger :=
  [ exampleRow 210 "Kenki" 6000 "itemA" 5,
    exampleRow 210 "Kenki" 6001 "itemB" 5 ]

/-- The first-match balance lookup of one KPI account code within one
department's rows — the quantity the company-wide branch of
`calculate_kpi` accumulates per department. -/
def deptLookup (m : Ledger) (k : AccountKey) (c : Int) : ℚ :=
  get_account_value (m.filter (fun r => r.dept_code == c)) (ACCOUNT_CODES k)

/-- A revenue row carrying a given period, for load-order experiments. -/
def rowP (p : String) : Row :=
  { exampleRow 210 "Kenki" 4199 "rev" 0 with period := some p }

/-- Two rows in one load order. -/
def permLedgerA : Ledger := [rowP "2025/08", rowP "2025/07"]

/-- The same two rows in the other load order. -/
def permLedgerB : Ledger := [rowP "2025/07", rowP "2025/08"]

/-- A parsed CSV file whose name carries no `YYYY_MM_` pattern, with one
row whose in-file start period is 2025/09. -/
def witnessCsvFile : CsvFile :=
  { filename := "report.csv",
    rows := [⟨210, "Kenki", 0, 4199, "rev", 0, 0, 0, 1000, some "2025/09"⟩] }

/-- The row that loading `witnessCsvFile` produces. -/
def witnessLoadedRow : Row :=
  { dept_code := 210, dept_name := "Kenki", report_type := 0,
    account_code := 4199, account_name := "rev", prior_balance := 0,
    debit := 0, credit := 0, balance := 1000,
    source_file := "report.csv", period := some "2025/09" }

/-! Helper lemmas. -/

theorem mem_of_mem_filter_by_department {df : Ledger} {dc : Option Int}
    {r : Row} (h : r ∈ filter_by_department df dc) : r ∈ df := by
  cases dc with
  | none => exact h
  | some c => exact (List.mem_filter.1 h).1

theorem mem_of_mem_filter_by_period {df : Ledger} {ym : Option String}
    {r : Row} (h : r ∈ filter_by_period df ym) : r ∈ df := by
  cases ym with
  | none => exact h
  | some p => exact (List.mem_filter.1 h).1

theorem filter_by_department_absent {df : Ledger} {c : Int}
    (h : ∀ r ∈ df, r.dept_code ≠ c) : filter_by_department df (some c) = [] := by
  simp only [filter_by_department]
  rw [List.filter_eq_nil_iff]
  intro r hr
  simpa using h r hr

theorem filter_by_period_absent {df : Ledger} {p : String}
    (h : ∀ r ∈ df, r.period ≠ some p) : filter_by_period df (some p) = [] := by
  simp only [filter_by_period]
  rw [List.filter_eq_nil_iff]
  intro r hr
  simpa using h r hr

theorem filter_by_period_nil (ym : Option String) :
    filter_by_period [] ym = [] := by
  cases ym <;> rfl

/-- Projection facts of the shared margin-computing tail of
`calculate_kpi`. -/
theorem finishKPI_fields (r c g s o od n : ℚ) :
    (finishKPI r c g s o od n).revenue = r ∧
    (finishKPI r c g s o od n).cost_of_sales = c ∧
    (finishKPI r c g s o od n).gross_profit = g ∧
    (finishKPI r c g s o od n).sga = s ∧
    (finishKPI r c g s o od n).operating_income = o ∧
    (finishKPI r c g s o od n).ordinary_income = od ∧
    (finishKPI r c g s o od n).net_income = n ∧
    (finishKPI r c g s o od n).gross_margin
      = (if r ≠ 0 then g / r * 100 else 0) ∧
    (finishKPI r c g s o od n).op_margin
      = (if r ≠ 0 then o / r * 100 else 0) ∧
    (finishKPI r c g s o od n).ord_margin
      = (if r ≠ 0 then od / r * 100 else 0) ∧
    (finishKPI r c g s o od n).net_margin
      = (if r ≠ 0 then n / r * 100 else 0) :=
  ⟨rfl, rfl, rfl, rfl, rfl, rfl, rfl, rfl, rfl, rfl, rfl⟩

/-- Both branches of `calculate_kpi` end in the shared margin tail. -/
theorem calculate_kpi_eq_finish (df : Ledger) (dc : Option Int)
    (ym : Option String) :
    ∃ r c g s o od n, calculate_kpi df dc ym = finishKPI r c g s o od n := by
  cases dc with
  | none => exact ⟨_, _, _, _, _, _, _, rfl⟩
  | some c => exact ⟨_, _, _, _, _, _, _, rfl⟩

/-- C6: `get_account_value` returns the `value_column` entry of the first
row whose account code matches, and exactly 0.0 when no row matches. -/
theorem get_account_value_first_match (rows : Ledger) (account_code : Int)
    (value_column : Col) :
    ((∀ r ∈ rows, r.account_code ≠ account_code) →
      get_account_value rows account_code value_column = 0)
    ∧ (∀ i : Nat, ∀ hi : i < rows.length,
        (rows.get ⟨i, hi⟩).account_code = account_code →
        (∀ j : Nat, ∀ hj : j < rows.length, j < i →
          (rows.get ⟨j, hj⟩).account_code ≠ account_code) →
        get_account_value rows account_code value_column
          = (rows.get ⟨i, hi⟩).colVal value_column) := by
  constructor
  · intro h
    have hnone : rows.find? (fun r => r.account_code == account_code) = none := by
      rw [List.find?_eq_none]
      intro r hr
      simpa using h r hr
    simp [get_account_value, hnone]
  · intro i hi hmatch hmin
    induction rows generalizing i with
    | nil => exact absurd hi (by simp)
    | cons a l ih =>
      by_cases ha : a.account_code = account_code
      · have hfind : (a :: l).find? (fun r => r.account_code == account_code)
            = some a :=
          List.find?_cons_of_pos _ (by simpa using ha)
        cases i with
        | zero => simp [get_account_value, hfind]
        | succ k =>
          exact absurd ha
            (hmin 0 (by simp) (Nat.succ_pos k))
      · have hfind : (a :: l).find? (fun r => r.account_code == account_code)
            = l.find? (fun r => r.account_code == account_code) :=
          List.find?_cons_of_neg _ (by simpa using ha)
        cases i with
        | zero => exact absurd hmatch ha
        | succ k =>
          have hk : k < l.length := Nat.lt_of_succ_lt_succ hi
          have hres := ih k hk hmatch (fun j hj hjk =>
            hmin (j + 1) (Nat.succ_lt_succ hj) (Nat.succ_lt_succ hjk))
          simpa [get_account_value, hfind] using hres

/-- C6 witness: in the example Ledger the first (and only) row with code
5400 is at index 1 and carries balance 3000000. -/
theorem get_account_value_first_match_witness :
    get_account_value exampleLedger 5400 Col.balance = 3000000 := by
  have h := (get_account_value_first_match exampleLedger 5400 Col.balance).2
    1 (by decide) (by decide)
    (fun j hj hj1 => by
      have hj0 : j = 0 := by omega
      subst hj0
      simp [exampleLedger, exampleRow])
  rw [h]
  decide

/-- C8: every Aggregator query is a pure function of the Ledger supplied
at construction: the state-threaded translation returns the stored
Ledger unchanged, so repeated calls in any order agree. -/
theorem aggregator_queries_pure (df : Ledger) (dc : Option Int)
    (ym : Option String) (ot : Int) (rows : Ledger) (ac : Int) (vc : Col) :
    (calculate_kpi_st df dc ym).2 = df
    ∧ (filter_by_department_st df dc).2 = df
    ∧ (filter_by_period_st df ym).2 = df
    ∧ (get_account_value_st df rows ac vc).2 = df
    ∧ (get_department_breakdown_st df ym).2 = df
    ∧ (get_cost_structure_st df dc ym).2 = df
    ∧ (get_sga_breakdown_st df dc ym).2 = df
    ∧ (get_detail_data_st df dc ym ot).2 = df
    ∧ (get_cost_breakdown_by_dept_st df ym).2 = df
    ∧ (calculate_kpi_st (get_sga_breakdown_st df dc ym).2 dc ym).1
        = (calculate_kpi_st df dc ym).1
    ∧ (get_sga_breakdown_st (calculate_kpi_st df dc ym).2 dc ym).1
        = (get_sga_breakdown_st df dc ym).1
    ∧ (calculate_kpi_st (calculate_kpi_st df dc ym).2 dc ym).1
        = (calculate_kpi_st df dc ym).1 :=
  ⟨rfl, rfl, rfl, rfl, rfl, rfl, rfl, rfl, rfl, rfl, rfl, rfl⟩

/-- C3: all four margins are exactly 0 when the looked-up revenue is 0,
and equal income / revenue * 100 when it is not. -/
theorem calculate_kpi_margin_safety (df : Ledger) (dc : Option Int)
    (ym : Option String) :
    ((calculate_kpi df dc ym).revenue = 0 →
      (calculate_kpi df dc ym).gross_margin = 0
      ∧ (calculate_kpi df dc ym).op_margin = 0
      ∧ (calculate_kpi df dc ym).ord_margin = 0
      ∧ (calculate_kpi df dc ym).net_margin = 0)
    ∧ ((calculate_kpi df dc ym).revenue ≠ 0 →
      (calculate_kpi df dc ym).gross_margin
        = (calculate_kpi df dc ym).gross_profit
            / (calculate_kpi df dc ym).revenue * 100
      ∧ (calculate_kpi df dc ym).op_margin
        = (calculate_kpi df dc ym).operating_income
            / (calculate_kpi df dc ym).revenue * 100
      ∧ (calculate_kpi df dc ym).ord_margin
        = (calculate_kpi df dc ym).ordinary_income
            / (calculate_kpi df dc ym).revenue * 100
      ∧ (calculate_kpi df dc ym).net_margin
        = (calculate_kpi df dc ym).net_income
            / (calculate_kpi df dc ym).revenue * 100) := by
  obtain ⟨r, c, g, s, o, od, n, h⟩ := calculate_kpi_eq_finish df dc ym
  rw [h]
  obtain ⟨h1, _, h3, _, h5, h6, h7, h8, h9, h10, h11⟩ :=
    finishKPI_fields r c g s o od n
  rw [h1, h3, h5, h6, h7, h8, h9, h10, h11]
  constructor
  · intro h0
    simp [h0]
  · intro hne
    simp [hne]

/-- C3 witness: at the example Ledger, department 210, period 2025/07 the
revenue is nonzero and the margin formulas apply; on the empty Ledger the
revenue is 0 and the margins are 0. -/
theorem calculate_kpi_margin_safety_witness :
    ((calculate_kpi exampleLedger (some 210) (some "2025/07")).gross_margin
      = (calculate_kpi exampleLedger (some 210) (some "2025/07")).gross_profit
          / (calculate_kpi exampleLedger (some 210) (some "2025/07")).revenue
          * 100)
    ∧ (calculate_kpi ([] : Ledger) none none).gross_margin = 0 := by
  constructor
  · refine ((calculate_kpi_margin_safety exampleLedger (some 210)
      (some "2025/07")).2 ?_).1
    have : (calculate_kpi exampleLedger (some 210) (some "2025/07")).revenue
        = 10000000 := by
      simp [calculate_kpi, kpiFromFiltered, filter_by_period,
        filter_by_department, get_main_accounts, get_account_value, uniq,
        kpiStep, finishKPI, exampleLedger, exampleRow, ACCOUNT_CODES,
        Row.colVal, List.filter, List.find?]
    rw [this]
    norm_num
  · refine ((calculate_kpi_margin_safety ([] : Ledger) none none).1 ?_).1
    simp [calculate_kpi, kpiFromFiltered, filter_by_period,
      filter_by_department, get_main_accounts, uniq, finishKPI]

/-- The company-wide loop of `calculate_kpi` accumulates, per field, the
sum of per-department lookups. -/
theorem kpiLoop_proj (m : Ledger) (codes : List Int) (acc : KpiSums) :
    (codes.foldl (kpiStep m) acc).revenue
      = acc.revenue + (codes.map (deptLookup m AccountKey.revenue)).sum
    ∧ (codes.foldl (kpiStep m) acc).cost_of_sales
      = acc.cost_of_sales + (codes.map (deptLookup m AccountKey.cost_of_sales)).sum
    ∧ (codes.foldl (kpiStep m) acc).gross_profit
      = acc.gross_profit + (codes.map (deptLookup m AccountKey.gross_profit)).sum
    ∧ (codes.foldl (kpiStep m) acc).sga
      = acc.sga + (codes.map (deptLookup m AccountKey.sga)).sum
    ∧ (codes.foldl (kpiStep m) acc).operating_income
      = acc.operating_income
        + (codes.map (deptLookup m AccountKey.operating_income)).sum
    ∧ (codes.foldl (kpiStep m) acc).ordinary_income
      = acc.ordinary_income
        + (codes.map (deptLookup m AccountKey.ordinary_income)).sum
    ∧ (codes.foldl (kpiStep m) acc).net_income
      = acc.net_income + (codes.map (deptLookup m AccountKey.net_income)).sum := by
  induction codes generalizing acc with
  | nil => simp
  | cons c cs ih =>
    obtain ⟨h1, h2, h3, h4, h5, h6, h7⟩ := ih (kpiStep m acc c)
    refine ⟨?_, ?_, ?_, ?_, ?_, ?_, ?_⟩ <;>
      rw [List.foldl_cons] <;>
      simp only [h1, h2, h3, h4, h5, h6, h7] <;>
      simp [kpiStep, deptLookup, add_assoc]

/-- C1: with `dept_code` null, each of the seven KPI amount fields equals
the sum, over every distinct department code of the filtered main
accounts, of that department's first-match lookup of the KPI's account
code; on the spec's two-department example, company-wide revenue is
18000000 and department 210's gross margin is 30.0. -/
theorem calculate_kpi_companywide_sums (df : Ledger) (ym : Option String) :
    ((calculate_kpi df none ym).revenue
      = ((uniq ((get_main_accounts (filter_by_period df ym)).map
            (fun r => r.dept_code))).map
          (deptLookup (get_main_accounts (filter_by_period df ym))
            AccountKey.revenue)).sum
    ∧ (calculate_kpi df none ym).cost_of_sales
      = ((uniq ((get_main_accounts (filter_by_period df ym)).map
            (fun r => r.dept_code))).map
          (deptLookup (get_main_accounts (filter_by_period df ym))
            AccountKey.cost_of_sales)).sum
    ∧ (calculate_kpi df none ym).gross_profit
      = ((uniq ((get_main_accounts (filter_by_period df ym)).map
            (fun r => r.dept_code))).map
          (deptLookup (get_main_accounts (filter_by_period df ym))
            AccountKey.gross_profit)).sum
    ∧ (calculate_kpi df none ym).sga
      = ((uniq ((get_main_accounts (filter_by_period df ym)).map
            (fun r => r.dept_code))).map
          (deptLookup (get_main_accounts (filter_by_period df ym))
            AccountKey.sga)).sum
    ∧ (calculate_kpi df none ym).operating_income
      = ((uniq ((get_main_accounts (filter_by_period df ym)).map
            (fun r => r.dept_code))).map
          (deptLookup (get_main_accounts (filter_by_period df ym))
            AccountKey.operating_income)).sum
    ∧ (calculate_kpi df none ym).ordinary_income
      = ((uniq ((get_main_accounts (filter_by_period df ym)).map
            (fun r => r.dept_code))).map
          (deptLookup (get_main_accounts (filter_by_period df ym))
            AccountKey.ordinary_income)).sum
    ∧ (calculate_kpi df none ym).net_income
      = ((uniq ((get_main_accounts (filter_by_period df ym)).map
            (fun r => r.dept_code))).map
          (deptLookup (get_main_accounts (filter_by_period df ym))
            AccountKey.net_income)).sum)
    ∧ (calculate_kpi exampleLedger none (some "2025/07")).revenue = 18000000
    ∧ (calculate_kpi exampleLedger (some 210) (some "2025/07")).gross_margin
        = 30 := by
  refine ⟨?_, ?_, ?_⟩
  · obtain ⟨h1, h2, h3, h4, h5, h6, h7⟩ :=
      kpiLoop_proj (get_main_accounts (filter_by_period df ym))
        (uniq ((get_main_accounts (filter_by_period df ym)).map
          (fun r => r.dept_code)))
        ⟨0, 0, 0, 0, 0, 0, 0⟩
    refine ⟨?_, ?_, ?_, ?_, ?_, ?_, ?_⟩ <;>
      simp only [calculate_kpi, kpiFromFiltered, filter_by_department,
        finishKPI] <;>
      simp [h1, h2, h3, h4, h5, h6, h7]
  · simp [calculate_kpi, kpiFromFiltered, filter_by_period,
      filter_by_department, get_main_accounts, get_account_value, uniq,
      kpiStep, finishKPI, exampleLedger, exampleRow, ACCOUNT_CODES,
      Row.colVal, List.filter, List.find?]
    norm_num
  · simp [calculate_kpi, kpiFromFiltered, filter_by_period,
      filter_by_department, get_main_accounts, get_account_value, uniq,
      kpiStep, finishKPI, exampleLedger, exampleRow, ACCOUNT_CODES,
      Row.colVal, List.filter, List.find?]
    norm_num

theorem kpiFromFiltered_nil (dc : Option Int) :
    kpiFromFiltered dc [] = zeroKPI := by
  cases dc <;>
    simp [kpiFromFiltered, get_main_accounts, get_account_value, uniq,
      finishKPI, zeroKPI]

theorem costStructureFromFiltered_nil (dc : Option Int) :
    costStructureFromFiltered dc [] = zeroCost := by
  cases dc <;>
    simp [costStructureFromFiltered, get_main_accounts, get_cost_breakdown,
      get_account_value, uniq, zeroCost]

theorem deptBreakdownFromFiltered_nil :
    deptBreakdownFromFiltered [] = [] := by
  simp [deptBreakdownFromFiltered, get_main_accounts, uniq]

theorem sgaFromFiltered_nil : sgaFromFiltered [] = [] := by
  simp [sgaFromFiltered, get_main_accounts, uniq]

theorem detailFromFiltered_nil (ot : Int) : detailFromFiltered ot [] = [] := by
  simp [detailFromFiltered]

theorem costByDeptFromFiltered_nil : costByDeptFromFiltered [] = [] := by
  simp [costByDeptFromFiltered, get_main_accounts, get_cost_breakdown, uniq]

/-- C2 (amended): on an empty Ledger, an absent department code, or an
absent period, every Aggregator method degrades totally — numeric outputs
are all 0 and tabular outputs are empty.  `get_detail_data` keeps its six
display columns even when empty, but the record-built frames
(`get_department_breakdown`, `get_sga_breakdown`,
`get_cost_breakdown_by_dept`) come from `pd.DataFrame([])` and so have NO
columns when empty. -/
theorem aggregator_empty_degradation (df : Ledger) (c : Int) (p : String)
    (dc : Option Int) (ym : Option String) (ot : Int) :
    (calculate_kpi [] dc ym = zeroKPI
      ∧ get_cost_structure [] dc ym = zeroCost
      ∧ get_department_breakdown [] ym = []
      ∧ get_sga_breakdown [] dc ym = []
      ∧ get_detail_data [] dc ym ot = []
      ∧ get_cost_breakdown_by_dept [] ym = [])
    ∧ ((∀ r ∈ df, r.dept_code ≠ c) →
        calculate_kpi df (some c) ym = zeroKPI
        ∧ get_cost_structure df (some c) ym = zeroCost
        ∧ get_sga_breakdown df (some c) ym = []
        ∧ get_detail_data df (some c) ym ot = [])
    ∧ ((∀ r ∈ df, r.period ≠ some p) →
        calculate_kpi df dc (some p) = zeroKPI
        ∧ get_cost_structure df dc (some p) = zeroCost
        ∧ get_department_breakdown df (some p) = []
        ∧ get_sga_breakdown df dc (some p) = []
        ∧ get_detail_data df dc (some p) ot = []
        ∧ get_cost_breakdown_by_dept df (some p) = [])
    ∧ get_detail_data_cols df dc ym ot = DETAIL_DISPLAY_COLS
    ∧ (get_department_breakdown_cols [] ym = []
      ∧ get_sga_breakdown_cols [] dc ym = []
      ∧ get_cost_breakdown_by_dept_cols [] ym = []) := by
  have hnil : ∀ ym' : Option String, ∀ dc' : Option Int,
      filter_by_period (filter_by_department ([] : Ledger) dc') ym' = [] := by
    intro ym' dc'
    cases dc' <;> cases ym' <;> rfl
  refine ⟨⟨?_, ?_, ?_, ?_, ?_, ?_⟩, ?_, ?_, rfl, ?_, ?_, ?_⟩
  · rw [calculate_kpi, hnil, kpiFromFiltered_nil]
  · rw [get_cost_structure, hnil, costStructureFromFiltered_nil]
  · rw [get_department_breakdown, filter_by_period_nil,
      deptBreakdownFromFiltered_nil]
  · rw [get_sga_breakdown, hnil, sgaFromFiltered_nil]
  · rw [get_detail_data, hnil, detailFromFiltered_nil]
  · rw [get_cost_breakdown_by_dept, filter_by_period_nil,
      costByDeptFromFiltered_nil]
  · intro h
    have hdept : filter_by_department df (some c) = [] :=
      filter_by_department_absent h
    refine ⟨?_, ?_, ?_, ?_⟩
    · rw [calculate_kpi, hdept, filter_by_period_nil, kpiFromFiltered_nil]
    · rw [get_cost_structure, hdept, filter_by_period_nil,
        costStructureFromFiltered_nil]
    · rw [get_sga_breakdown, hdept, filter_by_period_nil, sgaFromFiltered_nil]
    · rw [get_detail_data, hdept, filter_by_period_nil, detailFromFiltered_nil]
  · intro h
    have hper : ∀ dc' : Option Int,
        filter_by_period (filter_by_department df dc') (some p) = [] := by
      intro dc'
      exact filter_by_period_absent
        (fun r hr => h r (mem_of_mem_filter_by_department hr))
    refine ⟨?_, ?_, ?_, ?_, ?_, ?_⟩
    · rw [calculate_kpi, hper, kpiFromFiltered_nil]
    · rw [get_cost_structure, hper, costStructureFromFiltered_nil]
    · rw [get_department_breakdown]
      have := hper none
      simp only [filter_by_department] at this
      rw [this, deptBreakdownFromFiltered_nil]
    · rw [get_sga_breakdown, hper, sgaFromFiltered_nil]
    · rw [get_detail_data, hper, detailFromFiltered_nil]
    · rw [get_cost_breakdown_by_dept]
      have := hper none
      simp only [filter_by_department] at this
      rw [this, costByDeptFromFiltered_nil]
  · rw [get_department_breakdown_cols, get_department_breakdown,
      filter_by_period_nil, deptBreakdownFromFiltered_nil]
    rfl
  · rw [get_sga_breakdown_cols, get_sga_breakdown, hnil, sgaFromFiltered_nil]
    rfl
  · rw [get_cost_breakdown_by_dept_cols, get_cost_breakdown_by_dept,
      filter_by_period_nil, costByDeptFromFiltered_nil]
    rfl

/-- C2 counterexample: the claim promises every empty tabular output
still carries the expected column shape, but on the empty Ledger
`get_department_breakdown` builds `pd.DataFrame([])`, which has no
columns at all. -/
theorem empty_department_breakdown_loses_columns :
    get_department_breakdown_cols ([] : Ledger) none ≠ DEPT_BREAKDOWN_COLS := by
  rw [get_department_breakdown_cols, get_department_breakdown,
    filter_by_period_nil, deptBreakdownFromFiltered_nil]
  simp [recordFrameCols, DEPT_BREAKDOWN_COLS]

/-- C2 witness: a department code and a period absent from the example
Ledger give the all-zero KPI record. -/
theorem aggregator_empty_degradation_witness :
    calculate_kpi exampleLedger (some 999) none = zeroKPI
    ∧ calculate_kpi exampleLedger none (some "1999/01") = zeroKPI := by
  constructor
  · exact ((aggregator_empty_degradation exampleLedger 999 "1999/01"
      none none 0).2.1 (by decide)).1
  · exact ((aggregator_empty_degradation exampleLedger 999 "1999/01"
      none none 0).2.2.1 (by decide)).1

/-- C4 (amended): `get_sga_breakdown` keeps exactly the main-account rows
with account code in the half-open range [6000, 6299), flat-sums the
balances per account code across all departments in scope, drops items
whose sum is exactly 0, and returns the rest sorted by summed amount in
non-increasing (weakly descending) order. -/
theorem get_sga_breakdown_spec (df : Ledger) (dc : Option Int)
    (ym : Option String) :
    (get_sga_breakdown df dc ym).Sorted sgaGE
    ∧ (∀ it ∈ get_sga_breakdown df dc ym,
        6000 ≤ it.code ∧ it.code < 6299 ∧ it.amount ≠ 0 ∧
        it.amount = ((((get_main_accounts
            (filter_by_period (filter_by_department df dc) ym)).filter
            (fun r => 6000 ≤ r.account_code ∧ r.account_code < 6299)).filter
            (fun r => r.account_code == it.code)).map (fun r => r.balance)).sum)
    ∧ (∀ co : Int,
        (∃ it ∈ get_sga_breakdown df dc ym, it.code = co) ↔
          ((∃ r ∈ (get_main_accounts
              (filter_by_period (filter_by_department df dc) ym)).filter
              (fun r => 6000 ≤ r.account_code ∧ r.account_code < 6299),
              r.account_code = co)
           ∧ ((((get_main_accounts
              (filter_by_period (filter_by_department df dc) ym)).filter
              (fun r => 6000 ≤ r.account_code ∧ r.account_code < 6299)).filter
              (fun r => r.account_code == co)).map (fun r => r.balance)).sum
              ≠ 0)) := by
  have hdef : get_sga_breakdown df dc ym
      = List.insertionSort sgaGE
        ((uniq (((get_main_accounts
            (filter_by_period (filter_by_department df dc) ym)).filter
            (fun r => 6000 ≤ r.account_code ∧ r.account_code < 6299)).map
            (fun r => r.account_code))).filterMap
          (fun code =>
            let item_df := ((get_main_accounts
                (filter_by_period (filter_by_department df dc) ym)).filter
                (fun r => 6000 ≤ r.account_code ∧ r.account_code < 6299)).filter
                (fun r => r.account_code == code)
            let name := match item_df.head? with
              | some r => r.account_name
              | none => ""
            let total : ℚ := (item_df.map (fun r => r.balance)).sum
            if total ≠ 0 then some ⟨code, name, total⟩ else none)) := rfl
  refine ⟨?_, ?_, ?_⟩
  · rw [hdef]
    exact List.sorted_insertionSort sgaGE _
  · intro it hit
    rw [hdef, List.mem_insertionSort, List.mem_filterMap] at hit
    obtain ⟨code, hcode, hsome⟩ := hit
    simp only at hsome
    split_ifs at hsome with htot
    · cases hsome
      rw [mem_uniq, List.mem_map] at hcode
      obtain ⟨r, hr, hrc⟩ := hcode
      rw [List.mem_filter] at hr
      have hrange := of_decide_eq_true hr.2
      rw [hrc] at hrange
      exact ⟨hrange.1, hrange.2, htot, rfl⟩
  · intro co
    constructor
    · rintro ⟨it, hit, rfl⟩
      rw [hdef, List.mem_insertionSort, List.mem_filterMap] at hit
      obtain ⟨code, hcode, hsome⟩ := hit
      simp only at hsome
      split_ifs at hsome with htot
      · cases hsome
        rw [mem_uniq, List.mem_map] at hcode
        obtain ⟨r, hr, hrc⟩ := hcode
        exact ⟨⟨r, hr, hrc⟩, htot⟩
    · rintro ⟨⟨r, hr, hrc⟩, hsum⟩
      refine ⟨⟨co, match (((get_main_accounts
          (filter_by_period (filter_by_department df dc) ym)).filter
          (fun r => 6000 ≤ r.account_code ∧ r.account_code < 6299)).filter
          (fun r => r.account_code == co)).head? with
        | some r => r.account_name
        | none => "",
        ((((get_main_accounts
          (filter_by_period (filter_by_department df dc) ym)).filter
          (fun r => 6000 ≤ r.account_code ∧ r.account_code < 6299)).filter
          (fun r => r.account_code == co)).map (fun r => r.balance)).sum⟩,
        ?_, rfl⟩
      rw [hdef, List.mem_insertionSort, List.mem_filterMap]
      refine ⟨co, ?_, ?_⟩
      · rw [mem_uniq, List.mem_map]
        exact ⟨r, hr, hrc⟩
      · simp only [if_pos hsum]

/-- C4 counterexample: two SGA account codes with the same positive sum —
the output is not strictly descending by amount. -/
theorem get_sga_breakdown_not_strictly_descending :
    ¬ (get_sga_breakdown tieLedger none none).Pairwise
      (fun a b => b.amount < a.amount) := by
  have h : get_sga_breakdown tieLedger none none
      = [⟨6000, "itemA", 5⟩, ⟨6001, "itemB", 5⟩] := by
    simp [get_sga_breakdown, sgaFromFiltered, filter_by_period,
      filter_by_department, get_main_accounts, uniq, tieLedger, exampleRow,
      List.filter, List.filterMap, List.insertionSort, List.orderedInsert,
      sgaGE]
  rw [h]
  intro hp
  have := List.rel_of_pairwise_cons hp (List.mem_singleton.2 rfl)
  simp at this

/-- C4 witness: the tie Ledger's breakdown is weakly sorted and its head
item has nonzero amount. -/
theorem get_sga_breakdown_spec_witness :
    (get_sga_breakdown tieLedger none none).Sorted sgaGE
    ∧ (SgaItem.mk 6000 "itemA" 5).amount ≠ 0 := by
  have h : get_sga_breakdown tieLedger none none
      = [⟨6000, "itemA", 5⟩, ⟨6001, "itemB", 5⟩] := by
    simp [get_sga_breakdown, sgaFromFiltered, filter_by_period,
      filter_by_department, get_main_accounts, uniq, tieLedger, exampleRow,
      List.filter, List.filterMap, List.insertionSort, List.orderedInsert,
      sgaGE]
  have hmem : (⟨6000, "itemA", (5 : ℚ)⟩ : SgaItem)
      ∈ get_sga_breakdown tieLedger none none := by
    rw [h]
    simp
  exact ⟨(get_sga_breakdown_spec tieLedger none none).1,
    ((get_sga_breakdown_spec tieLedger none none).2.1 _ hmem).2.2.1⟩

/-- C9: `get_cost_breakdown_by_dept` emits a record for a department code
exactly when that code appears in the report-type-1 partition of the
period-filtered rows; a department with only report-type-0 rows (even a
mfg_cost line) yields no record, so its manufacturing cost is absent. -/
theorem get_cost_breakdown_by_dept_membership (df : Ledger)
    (ym : Option String) (c : Int) :
    ((∃ rec ∈ get_cost_breakdown_by_dept df ym, rec.dept_code = c) ↔
      ∃ r ∈ filter_by_period df ym, r.report_type = 1 ∧ r.dept_code = c)
    ∧ ((∃ r ∈ filter_by_period df ym, r.report_type = 0 ∧ r.dept_code = c) →
       (∀ r ∈ filter_by_period df ym, r.report_type = 1 → r.dept_code ≠ c) →
       ¬ ∃ rec ∈ get_cost_breakdown_by_dept df ym, rec.dept_code = c) := by
  have hmain : (∃ rec ∈ get_cost_breakdown_by_dept df ym, rec.dept_code = c) ↔
      ∃ r ∈ filter_by_period df ym, r.report_type = 1 ∧ r.dept_code = c := by
    constructor
    · rintro ⟨rec, hrec, rfl⟩
      simp only [get_cost_breakdown_by_dept, costByDeptFromFiltered,
        List.mem_map] at hrec
      obtain ⟨code, hcode, rfl⟩ := hrec
      rw [List.mem_insertionSort, mem_uniq, List.mem_map] at hcode
      obtain ⟨r, hr, hrc⟩ := hcode
      rw [get_cost_breakdown, List.mem_filter] at hr
      exact ⟨r, hr.1, by simpa using hr.2, hrc⟩
    · rintro ⟨r, hr, htype, hdept⟩
      simp only [get_cost_breakdown_by_dept, costByDeptFromFiltered]
      have hcl : c ∈ List.insertionSort (fun a b : Int => a ≤ b)
          (uniq ((get_cost_breakdown (filter_by_period df ym)).map
            (fun r => r.dept_code))) := by
        rw [List.mem_insertionSort, mem_uniq, List.mem_map]
        refine ⟨r, ?_, hdept⟩
        rw [get_cost_breakdown, List.mem_filter]
        exact ⟨hr, by simpa using htype⟩
      exact ⟨_, List.mem_map_of_mem _ hcl, rfl⟩
  refine ⟨hmain, ?_⟩
  rintro _ hno ⟨rec, hrec, hc⟩
  obtain ⟨r, hr, htype, hdept⟩ := hmain.1 ⟨rec, hrec, hc⟩
  exact hno r hr htype hdept

/-- C9 witness: the example Ledger is all report type 0, so department
210 gets no record in the per-department cost table. -/
theorem get_cost_breakdown_by_dept_membership_witness :
    ¬ ∃ rec ∈ get_cost_breakdown_by_dept exampleLedger none,
        rec.dept_code = 210 := by
  refine (get_cost_breakdown_by_dept_membership exampleLedger none 210).2
    ?_ ?_
  · exact ⟨exampleRow 210 "Kenki" 4199 "rev" 10000000, by decide, by decide⟩
  · decide

/-- C10: a `load_all` that finds a missing directory or no CSV files
returns the empty Ledger but leaves `loaded_files` untouched — so it can
still report the previous load's filenames and disagree with the now
empty cached Ledger; `reload` clears the list before loading. -/
theorem load_all_stale_loaded_files (st : LoaderState) :
    ((load_all st none).1.loaded_files = st.loaded_files
      ∧ (load_all st none).2 = []
      ∧ (load_all st none).1.cached = some [])
    ∧ ((load_all st (some [])).1.loaded_files = st.loaded_files
      ∧ (load_all st (some [])).2 = []
      ∧ (load_all st (some [])).1.cached = some [])
    ∧ ((load_all ⟨some [], ["a.csv"]⟩ (some [])).1.loaded_files = ["a.csv"]
      ∧ (load_all ⟨some [], ["a.csv"]⟩ (some [])).2 = [])
    ∧ ((reload st none).1.loaded_files = []
      ∧ (reload st (some [])).1.loaded_files = []) :=
  ⟨⟨rfl, rfl, rfl⟩, ⟨rfl, rfl, rfl⟩, ⟨rfl, rfl⟩, rfl, rfl⟩

/-- C7: `get_periods` returns the distinct non-null periods sorted
ascending and duplicate-free, depends only on the multiset of rows (load
order is irrelevant), and `get_latest_period` is its last element or
null. -/
theorem get_periods_spec (df : Ledger) :
    (get_periods df).Sorted (fun a b : String => a ≤ b)
    ∧ (get_periods df).Nodup
    ∧ (∀ p : String, p ∈ get_periods df ↔ ∃ r ∈ df, r.period = some p)
    ∧ (∀ df' : Ledger, df.Perm df' → get_periods df = get_periods df')
    ∧ get_latest_period df = (get_periods df).getLast? := by
  have hsorted : ∀ l : Ledger,
      (get_periods l).Sorted (fun a b : String => a ≤ b) := by
    intro l
    unfold get_periods
    split
    · simp
    · exact List.sorted_insertionSort _ _
  have hnodup : ∀ l : Ledger, (get_periods l).Nodup := by
    intro l
    unfold get_periods
    split
    · simp
    · exact ((List.perm_insertionSort _ _).nodup_iff).2 (nodup_uniq _)
  have hmem : ∀ (l : Ledger) (p : String),
      p ∈ get_periods l ↔ ∃ r ∈ l, r.period = some p := by
    intro l p
    unfold get_periods
    split
    · rename_i h
      rw [List.isEmpty_iff] at h
      subst h
      simp
    · rw [List.mem_insertionSort, mem_uniq, List.mem_filterMap]
  refine ⟨hsorted df, hnodup df, hmem df, ?_, ?_⟩
  · intro df' hperm
    refine List.eq_of_perm_of_sorted ?_ (hsorted df) (hsorted df')
    refine (List.perm_ext_iff_of_nodup (hnodup df) (hnodup df')).mpr ?_
    intro p
    rw [hmem df p, hmem df' p]
    constructor
    · rintro ⟨r, hr, hp⟩
      exact ⟨r, hperm.mem_iff.1 hr, hp⟩
    · rintro ⟨r, hr, hp⟩
      exact ⟨r, hperm.mem_iff.2 hr, hp⟩
  · simp only [get_latest_period]
    split
    · rename_i h
      rw [List.isEmpty_iff] at h
      rw [h]
      rfl
    · rfl

/-- C7 witness: swapping the two rows' load order leaves `get_periods`
unchanged. -/
theorem get_periods_spec_witness :
    get_periods permLedgerA = get_periods permLedgerB :=
  (get_periods_spec permLedgerA).2.2.2.1 permLedgerB
    (List.Perm.swap (rowP "2025/07") (rowP "2025/08") [])

/-- C5: the filename scan returns the leftmost position where the
`YYYY_MM_` pattern matches (rendered `"YYYY/MM"`); when the filename does
not match, `load_file` falls back to the first non-null in-file start
period, else null; and every produced row carries the single derived
period and the source filename. -/
theorem load_file_period_derivation :
    (∀ cs : List Char,
      scanYM cs = ((List.range cs.length).find?
          (fun i => (matchYM (cs.drop i)).isSome)).bind
        (fun i => matchYM (cs.drop i)))
    ∧ (∀ y1 y2 y3 y4 m1 m2 : Char, ∀ rest : List Char,
        y1.isDigit = true → y2.isDigit = true → y3.isDigit = true →
        y4.isDigit = true → m1.isDigit = true → m2.isDigit = true →
        matchYM (y1 :: y2 :: y3 :: y4 :: '_' :: m1 :: m2 :: '_' :: rest)
          = some (String.mk [y1, y2, y3, y4, '/', m1, m2]))
    ∧ (∀ f : CsvFile, ∀ r ∈ load_file f,
        r.source_file = f.filename ∧
        r.period = (match extract_year_month_from_filename f.filename with
          | some ym => some ym
          | none => (f.rows.filterMap (fun x => x.start_period)).head?))
    ∧ extract_year_month_from_filename "2025_07_損益計算書.csv"
        = some "2025/07" := by
  refine ⟨?_, ?_, ?_, ?_⟩
  · intro cs
    induction cs with
    | nil => rfl
    | cons c rest ih =>
      cases hm : matchYM (c :: rest) with
      | some s =>
        rw [List.length_cons, List.range_succ_eq_map]
        simp [scanYM, hm, List.find?_cons]
      | none =>
        rw [List.length_cons, List.range_succ_eq_map]
        simp only [scanYM, hm]
        rw [ih]
        simp only [List.find?_cons, List.drop_zero, hm, Option.isSome_none,
          List.find?_map]
        have hcomp : ((fun i => (matchYM ((c :: rest).drop i)).isSome)
            ∘ Nat.succ) = fun i => (matchYM (rest.drop i)).isSome := rfl
        rw [hcomp]
        cases hf : (List.range rest.length).find?
            (fun i => (matchYM (rest.drop i)).isSome) with
        | none => simp
        | some i => simp
  · intro y1 y2 y3 y4 m1 m2 rest h1 h2 h3 h4 h5 h6
    simp [matchYM, h1, h2, h3, h4, h5, h6]
  · intro f r hr
    simp only [load_file, List.mem_map] at hr
    obtain ⟨x, _, rfl⟩ := hr
    exact ⟨rfl, rfl⟩
  · decide

/-- C5 witness: the anchored match renders `2025_07_` as `2025/07`, and a
pattern-less filename falls back to the row's in-file start period. -/
theorem load_file_period_derivation_witness :
    matchYM ['2', '0', '2', '5', '_', '0', '7', '_'] = some "2025/07"
    ∧ witnessLoadedRow.source_file = "report.csv"
    ∧ witnessLoadedRow.period = some "2025/09" := by
  have hmem : witnessLoadedRow ∈ load_file witnessCsvFile := by decide
  have h := load_file_period_derivation.2.2.1 witnessCsvFile
    witnessLoadedRow hmem
  refine ⟨?_, h.1, ?_⟩
  · have hb := load_file_period_derivation.2.1 '2' '0' '2' '5' '0' '7' []
      (by decide) (by decide) (by decide) (by decide) (by decide) (by decide)
    rw [hb]
  · rw [h.2]
    decide

end FukuiBI
